import Mathlib

/-!
Shallow embedding of `src/python/mailer.py`, a one-shot CLI that sends a
single plain-text email over SMTP.  The Python process interacts with three
ambient facilities, each modelled explicitly:

* the environment (`os.environ.get`) as a partial map `String → Option String`;
* the filesystem (`open(path).read()`) as an oracle
  `String → Except String String` returning either the error detail of the
  raised exception or the file content;
* the network (smtplib) as an oracle `Option (Nat × String)`: `none` means
  every SMTP operation succeeds, `some (i, d)` means the `i`-th operation of
  the attempted session raises an exception with detail `d`.

The observable result of a run is its exit code (`none` encodes an uncaught
exception escaping `main`), the stdout/stderr output, the message object
constructed (if any), and the trace of SMTP operations attempted.
-/

namespace Mailer

/-- `os.environ.get(key, default)` (mailer.py lines 20-25). -/
def envGet (env : String → Option String) (key dflt : String) : String :=
  (env key).getD dflt

/-- Python `str.lower()` restricted to ASCII, the case used by the program
(mailer.py line 25). -/
def pyLower (s : String) : String :=
  ⟨s.data.map Char.toLower⟩

/-- The whitespace stripping Python `int` performs on its argument before
parsing (ASCII whitespace). -/
def pyStrip (s : String) : String :=
  ⟨((s.data.dropWhile Char.isWhitespace).reverse.dropWhile
      Char.isWhitespace).reverse⟩

/-- Tail of a Python integer-literal digit string: digits with single
underscores allowed only between digits (`int("1_0") = 10`, `int("1__0")`
raises).  The head digit has already been consumed by `pyDigits`. -/
def digitsTail : List Char → Bool
  | [] => true
  | [c] => c.isDigit
  | c :: d :: rest =>
      if c = '_' then d.isDigit && digitsTail rest
      else c.isDigit && digitsTail (d :: rest)

/-- A nonempty digit string acceptable to Python `int` after sign removal. -/
def pyDigits : List Char → Bool
  | [] => false
  | c :: rest => c.isDigit && digitsTail rest

/-- Numeric value of a digit string, skipping separating underscores. -/
def digitsVal (cs : List Char) : Nat :=
  cs.foldl (fun a c => if c = '_' then a else a * 10 + (c.toNat - '0'.toNat)) 0

/-- Python `int(s)` (mailer.py line 21): strip surrounding whitespace, allow
one optional sign, then a digit string with single underscores between
digits; any other input raises `ValueError`.  (Abstraction: only ASCII
whitespace and ASCII digits are modelled.) -/
def pythonInt (s : String) : Option Int :=
  match (pyStrip s).data with
  | '+' :: rest => if pyDigits rest then some (digitsVal rest : Int) else none
  | '-' :: rest => if pyDigits rest then some (-(digitsVal rest : Int)) else none
  | cs => if pyDigits cs then some (digitsVal cs : Int) else none

/-- `smtp_host = os.environ.get('SMTP_HOST', 'smtp.gmail.com')` (line 20). -/
def smtpHost (env : String → Option String) : String :=
  envGet env "SMTP_HOST" "smtp.gmail.com"

/-- The string whose `int(...)` coercion yields the port:
`os.environ.get('SMTP_PORT', '587')` (line 21). -/
def smtpPortStr (env : String → Option String) : String :=
  envGet env "SMTP_PORT" "587"

/-- `smtp_user = os.environ.get('SMTP_USER', '')` (line 22). -/
def smtpUser (env : String → Option String) : String :=
  envGet env "SMTP_USER" ""

/-- `smtp_pass = os.environ.get('SMTP_PASS', '')` (line 23). -/
def smtpPass (env : String → Option String) : String :=
  envGet env "SMTP_PASS" ""

/-- `smtp_from = os.environ.get('SMTP_FROM', smtp_user or 'monitor@example.com')`
(line 24).  Python `or` yields the right operand exactly when the left is
the empty string. -/
def smtpFrom (env : String → Option String) : String :=
  envGet env "SMTP_FROM"
    (if smtpUser env = "" then "monitor@example.com" else smtpUser env)

/-- `starttls = os.environ.get('SMTP_STARTTLS', 'true').lower() in ('1','true','yes')`
(line 25). -/
def smtpStarttls (env : String → Option String) : Bool :=
  pyLower (envGet env "SMTP_STARTTLS" "true") ∈ (["1", "true", "yes"] : List String)

/-- The `EmailMessage` built at lines 35-39: `From`, `To`, `Subject` headers
and the body file content as the plain-text content. -/
structure EmailMessage where
  fromAddr : String
  toAddr : String
  subject : String
  body : String
deriving DecidableEq

/-- `msg = EmailMessage(); msg['From'] = smtp_from; msg['To'] = args.to;
msg['Subject'] = args.subject; msg.set_content(body)` (lines 35-39). -/
def builtMessage (env : String → Option String) (toA subject body : String) :
    EmailMessage :=
  { fromAddr := smtpFrom env, toAddr := toA, subject := subject, body := body }

/-- One SMTP-library operation performed inside the `try` block of lines
41-55.  `connectPlain` is the `smtplib.SMTP(host, port, timeout=30)`
constructor, `connectSSL` the `smtplib.SMTP_SSL(...)` constructor,
`startTLSUpgrade` is `server.starttls(context)`. -/
inductive SmtpOp where
  | connectPlain (host : String) (port : Int) (timeout : Nat)
  | connectSSL (host : String) (port : Int) (timeout : Nat)
  | ehlo
  | startTLSUpgrade
  | login (user pass : String)
  | sendMessage (msg : EmailMessage)
deriving DecidableEq

/-- `if smtp_user: server.login(smtp_user, smtp_pass)` (lines 48-49 and
53-54): a login operation exactly when the user string is non-empty. -/
def loginOps (user pass : String) : List SmtpOp :=
  if user = "" then [] else [SmtpOp.login user pass]

/-- The sequence of SMTP operations the code issues when nothing fails
(lines 42-55): STARTTLS branch is connect, EHLO, TLS upgrade, EHLO,
optional login, send; direct-TLS branch is SSL connect, optional login,
send. -/
def plannedOps (starttls : Bool) (host : String) (port : Int)
    (user pass : String) (msg : EmailMessage) : List SmtpOp :=
  if starttls then
    [SmtpOp.connectPlain host port 30, SmtpOp.ehlo, SmtpOp.startTLSUpgrade,
     SmtpOp.ehlo] ++ loginOps user pass ++ [SmtpOp.sendMessage msg]
  else
    [SmtpOp.connectSSL host port 30] ++ loginOps user pass ++
      [SmtpOp.sendMessage msg]

/-- The SMTP session the program attempts for a given environment, parsed
port, CLI arguments and body content. -/
def sessionOps (env : String → Option String) (port : Int)
    (toA subject body : String) : List SmtpOp :=
  plannedOps (smtpStarttls env) (smtpHost env) port (smtpUser env)
    (smtpPass env) (builtMessage env toA subject body)

/-- Execute a planned operation sequence against the network oracle: on
`none` all operations run; on `some (i, d)` with `i` in range, operations
`0..i` are attempted and the `i`-th raises detail `d`.  Returns the trace of
attempted operations and the raised detail, if any. -/
def execSmtp (net : Option (Nat × String)) (ops : List SmtpOp) :
    List SmtpOp × Option String :=
  match net with
  | none => (ops, none)
  | some (i, d) =>
      if i < ops.length then (ops.take (i + 1), some d) else (ops, none)

/-- One line written to stderr, kept structured; `renderStderrLine` gives
the concrete text. -/
inductive StderrLine where
  | usage (detail : String)
  | bodyReadError (detail : String)
  | smtpSendFailed (detail : String)
  | traceback (detail : String)
deriving DecidableEq

/-- Concrete text of a stderr line.  `print("Error reading body file:", e,
file=sys.stderr)` joins its arguments with a single space (lines 32, 57). -/
def renderStderrLine : StderrLine → String
  | StderrLine.usage d => d
  | StderrLine.bodyReadError d => "Error reading body file: " ++ d
  | StderrLine.smtpSendFailed d => "SMTP send failed: " ++ d
  | StderrLine.traceback d => d

/-- Whether a stderr line is one of the two guarded diagnostics of the
program. -/
def isDiagnostic : StderrLine → Bool
  | StderrLine.bodyReadError _ => true
  | StderrLine.smtpSendFailed _ => true
  | _ => false

/-- The ambient world a single invocation runs in. -/
structure World where
  env : String → Option String
  readBody : String → Except String String
  net : Option (Nat × String)

/-- Observable outcome of one invocation.  `exitCode = none` encodes an
uncaught exception escaping `main` (the interpreter then prints a traceback
and exits abnormally, with neither of the guarded diagnostics). -/
structure RunResult where
  exitCode : Option Nat
  stdout : List String
  stderr : List StderrLine
  messageBuilt : Option EmailMessage
  smtpTrace : List SmtpOp
deriving DecidableEq

/-- `main()` of mailer.py, from `argparse` through `return 0`, composed with
`sys.exit(main())` (line 63).  The three CLI flags are modelled as
`Option String` values: `none` means the flag is absent, in which case
argparse prints a usage message to stderr and exits 2 before `main`'s body
runs. -/
def run (w : World) (argTo argSubject argBodyFile : Option String) :
    RunResult :=
  match argTo, argSubject, argBodyFile with
  | some toA, some subject, some bodyFile =>
      match pythonInt (smtpPortStr w.env) with
      | none =>
          { exitCode := none, stdout := [],
            stderr := [StderrLine.traceback
              ("ValueError: invalid literal for int() with base 10: " ++
                smtpPortStr w.env)],
            messageBuilt := none, smtpTrace := [] }
      | some port =>
          match w.readBody bodyFile with
          | Except.error e =>
              { exitCode := some 3, stdout := [],
                stderr := [StderrLine.bodyReadError e],
                messageBuilt := none, smtpTrace := [] }
          | Except.ok body =>
              let msg := builtMessage w.env toA subject body
              let ops := sessionOps w.env port toA subject body
              match execSmtp w.net ops with
              | (trace, some d) =>
                  { exitCode := some 4, stdout := [],
                    stderr := [StderrLine.smtpSendFailed d],
                    messageBuilt := some msg, smtpTrace := trace }
              | (trace, none) =>
                  { exitCode := some 0, stdout := [], stderr := [],
                    messageBuilt := some msg, smtpTrace := trace }
  | _, _, _ =>
      { exitCode := some 2, stdout := [],
        stderr := [StderrLine.usage
          "usage error: the following arguments are required"],
        messageBuilt := none, smtpTrace := [] }

/-- The messages carried by the `sendMessage` operations of a trace. -/
def sentMessages (ops : List SmtpOp) : List EmailMessage :=
  ops.filterMap fun op =>
    match op with
    | SmtpOp.sendMessage m => some m
    | _ => none

/-- Operation classifiers, used to state retry-freedom. -/
def isConnectOp : SmtpOp → Bool
  | SmtpOp.connectPlain _ _ _ => true
  | SmtpOp.connectSSL _ _ _ => true
  | _ => false

def isLoginOp : SmtpOp → Bool
  | SmtpOp.login _ _ => true
  | _ => false

def isSendOp : SmtpOp → Bool
  | SmtpOp.sendMessage _ => true
  | _ => false

def isStartTLSOp : SmtpOp → Bool
  | SmtpOp.startTLSUpgrade => true
  | _ => false

def isEhloOp : SmtpOp → Bool
  | SmtpOp.ehlo => true
  | _ => false

/-- `line` begins with the text `pre`. -/
def startsWithText (line pre : String) : Prop :=
  ∃ rest, line = pre ++ rest

/-- Retry-freedom of an operation trace: each session step appears at most
once (EHLO is issued twice by design in the STARTTLS branch, never more). -/
def attemptsEachStepAtMostOnce (ops : List SmtpOp) : Prop :=
  ops.countP isConnectOp ≤ 1 ∧ ops.countP isStartTLSOp ≤ 1 ∧
  ops.countP isLoginOp ≤ 1 ∧ ops.countP isSendOp ≤ 1 ∧
  ops.countP isEhloOp ≤ 2

/-- Concrete world for witnesses: empty environment, readable body file,
healthy network. -/
def okWorld : World :=
  { env := fun _ => none,
    readBody := fun _ => Except.ok "disk at 95%",
    net := none }

/-- Concrete world for the C2 witness: the body file is unreadable. -/
def badFileWorld : World :=
  { env := fun _ => none,
    readBody := fun _ => Except.error "No such file or directory",
    net := none }

/-- Concrete world for the C3 witness: the connection is refused at the
first operation. -/
def refusedWorld : World :=
  { env := fun _ => none,
    readBody := fun _ => Except.ok "disk at 95%",
    net := some (0, "Connection refused") }

/-- Environment with SMTP_FROM set to the empty string. -/
def emptyFromEnv : String → Option String :=
  fun k => if k = "SMTP_FROM" then some "" else none

/-- The empty environment: every variable unset. -/
def noVarEnv : String → Option String := fun _ => none

/-- Environment selecting the direct-TLS branch. -/
def sslEnv : String → Option String :=
  fun k => if k = "SMTP_STARTTLS" then some "0" else none

/-- Environment with credentials set. -/
def credEnv : String → Option String :=
  fun k =>
    if k = "SMTP_USER" then some "alice"
    else if k = "SMTP_PASS" then some "hunter2" else none

/-- Concrete world for the C6 witness: non-numeric SMTP_PORT. -/
def badPortWorld : World :=
  { env := fun k => if k = "SMTP_PORT" then some "abc" else none,
    readBody := fun _ => Except.ok "disk at 95%",
    net := none }

/-- Worlds for the C10 witness: identical except for SMTP_PASS. -/
def passWorldA : World :=
  { env := fun k => if k = "SMTP_PASS" then some "secretA" else none,
    readBody := fun _ => Except.ok "disk at 95%",
    net := none }

def passWorldB : World :=
  { env := fun k => if k = "SMTP_PASS" then some "secretB" else none,
    readBody := fun _ => Except.ok "disk at 95%",
    net := none }

/-- The rendered body-read diagnostic begins with the documented prefix. -/
theorem render_bodyReadError_prefix (d : String) :
    startsWithText (renderStderrLine (StderrLine.bodyReadError d))
      "Error reading body file:" := by
  refine ⟨" " ++ d, ?_⟩
  show "Error reading body file: " ++ d = _
  rw [← String.append_assoc]
  rfl

/-- The rendered SMTP diagnostic begins with the documented prefix. -/
theorem render_smtpSendFailed_prefix (d : String) :
    startsWithText (renderStderrLine (StderrLine.smtpSendFailed d))
      "SMTP send failed:" := by
  refine ⟨" " ++ d, ?_⟩
  show "SMTP send failed: " ++ d = _
  rw [← String.append_assoc]
  rfl

/-- C1: when the three flags parse, the port is numeric, the body file reads
successfully and the SMTP session raises nothing, the program exits 0,
writes nothing to stdout, and the trace carries exactly one sent message
whose From/To/Subject/body are the resolved smtp_from, the --to argument,
the --subject argument and the body file content. -/
theorem C1_success_sends_one_matching_message
    (w : World) (toA subject bodyFile body : String) (port : Int)
    (hport : pythonInt (smtpPortStr w.env) = some port)
    (hbody : w.readBody bodyFile = Except.ok body)
    (hnet : w.net = none) :
    (run w (some toA) (some subject) (some bodyFile)).exitCode = some 0 ∧
    (run w (some toA) (some subject) (some bodyFile)).stdout = [] ∧
    sentMessages (run w (some toA) (some subject) (some bodyFile)).smtpTrace =
      [{ fromAddr := smtpFrom w.env, toAddr := toA, subject := subject,
         body := body }] := by
  simp only [run, hport, hbody, hnet]
  by_cases hs : smtpStarttls w.env <;>
    by_cases hu : smtpUser w.env = "" <;>
      simp [execSmtp, sessionOps, plannedOps, loginOps, builtMessage,
        sentMessages, hs, hu]

/-- C1 witness at a concrete invocation. -/
theorem C1_witness :
    pythonInt (smtpPortStr okWorld.env) = some 587 ∧
    okWorld.readBody "/tmp/b.txt" = Except.ok "disk at 95%" ∧
    okWorld.net = none ∧
    ((run okWorld (some "a@b.com") (some "Disk full")
        (some "/tmp/b.txt")).exitCode = some 0 ∧
     (run okWorld (some "a@b.com") (some "Disk full")
        (some "/tmp/b.txt")).stdout = [] ∧
     sentMessages (run okWorld (some "a@b.com") (some "Disk full")
        (some "/tmp/b.txt")).smtpTrace =
       [{ fromAddr := smtpFrom okWorld.env, toAddr := "a@b.com",
          subject := "Disk full", body := "disk at 95%" }]) :=
  ⟨by decide, rfl, rfl,
   C1_success_sends_one_matching_message okWorld "a@b.com" "Disk full"
     "/tmp/b.txt" "disk at 95%" 587 (by decide) rfl rfl⟩

/-- C2: if reading the body file raises, the program reports the guarded
diagnostic on stderr, exits 3, builds no message and attempts no SMTP
operation. -/
theorem C2_body_read_failure
    (w : World) (toA subject bodyFile e : String) (port : Int)
    (hport : pythonInt (smtpPortStr w.env) = some port)
    (hbody : w.readBody bodyFile = Except.error e) :
    run w (some toA) (some subject) (some bodyFile) =
      { exitCode := some 3, stdout := [],
        stderr := [StderrLine.bodyReadError e],
        messageBuilt := none, smtpTrace := [] } ∧
    startsWithText (renderStderrLine (StderrLine.bodyReadError e))
      "Error reading body file:" := by
  refine ⟨?_, render_bodyReadError_prefix e⟩
  simp only [run, hport, hbody]

/-- C2 witness at a concrete invocation. -/
theorem C2_witness :
    pythonInt (smtpPortStr badFileWorld.env) = some 587 ∧
    badFileWorld.readBody "/tmp/missing" =
      Except.error "No such file or directory" ∧
    (run badFileWorld (some "a@b.com") (some "Disk full")
        (some "/tmp/missing") =
      { exitCode := some 3, stdout := [],
        stderr := [StderrLine.bodyReadError "No such file or directory"],
        messageBuilt := none, smtpTrace := [] } ∧
     startsWithText
       (renderStderrLine
         (StderrLine.bodyReadError "No such file or directory"))
       "Error reading body file:") :=
  ⟨by decide, rfl,
   C2_body_read_failure badFileWorld "a@b.com" "Disk full" "/tmp/missing"
     "No such file or directory" 587 (by decide) rfl⟩

/-- The full planned session attempts each step at most once. -/
theorem sessionOps_attemptsEachStepAtMostOnce
    (env : String → Option String) (port : Int)
    (toA subject body : String) :
    attemptsEachStepAtMostOnce (sessionOps env port toA subject body) := by
  by_cases hs : smtpStarttls env <;>
    by_cases hu : smtpUser env = "" <;>
      simp [attemptsEachStepAtMostOnce, sessionOps, plannedOps, loginOps,
        hs, hu, List.countP_append, List.countP_cons, isConnectOp,
        isStartTLSOp, isLoginOp, isSendOp, isEhloOp]

/-- A prefix of a retry-free trace is retry-free. -/
theorem attemptsEachStepAtMostOnce_of_sublist
    {ops₁ ops₂ : List SmtpOp} (hsub : ops₁.Sublist ops₂)
    (h : attemptsEachStepAtMostOnce ops₂) :
    attemptsEachStepAtMostOnce ops₁ := by
  obtain ⟨h1, h2, h3, h4, h5⟩ := h
  exact ⟨le_trans (hsub.countP_le _) h1, le_trans (hsub.countP_le _) h2,
    le_trans (hsub.countP_le _) h3, le_trans (hsub.countP_le _) h4,
    le_trans (hsub.countP_le _) h5⟩

/-- C3: any failure raised by an operation of the SMTP session is caught,
the program reports the guarded diagnostic and exits 4, the attempted trace
is the planned session cut at the failing operation, and no step is
retried. -/
theorem C3_smtp_failure_exits_4
    (w : World) (toA subject bodyFile body d : String) (port : Int) (i : Nat)
    (hport : pythonInt (smtpPortStr w.env) = some port)
    (hbody : w.readBody bodyFile = Except.ok body)
    (hnet : w.net = some (i, d))
    (hi : i < (sessionOps w.env port toA subject body).length) :
    (run w (some toA) (some subject) (some bodyFile)).exitCode = some 4 ∧
    (run w (some toA) (some subject) (some bodyFile)).stderr =
      [StderrLine.smtpSendFailed d] ∧
    startsWithText (renderStderrLine (StderrLine.smtpSendFailed d))
      "SMTP send failed:" ∧
    (run w (some toA) (some subject) (some bodyFile)).smtpTrace =
      (sessionOps w.env port toA subject body).take (i + 1) ∧
    attemptsEachStepAtMostOnce
      (run w (some toA) (some subject) (some bodyFile)).smtpTrace := by
  have hrun : run w (some toA) (some subject) (some bodyFile) =
      { exitCode := some 4, stdout := [],
        stderr := [StderrLine.smtpSendFailed d],
        messageBuilt := some (builtMessage w.env toA subject body),
        smtpTrace := (sessionOps w.env port toA subject body).take (i + 1) } := by
    simp only [run, hport, hbody, hnet, execSmtp, hi, if_pos]
  refine ⟨by rw [hrun], by rw [hrun], render_smtpSendFailed_prefix d, by rw [hrun], ?_⟩
  rw [hrun]
  exact attemptsEachStepAtMostOnce_of_sublist (List.take_sublist _ _)
    (sessionOps_attemptsEachStepAtMostOnce w.env port toA subject body)

/-- C3 witness at a concrete invocation. -/
theorem C3_witness :
    pythonInt (smtpPortStr refusedWorld.env) = some 587 ∧
    refusedWorld.readBody "/tmp/b.txt" = Except.ok "disk at 95%" ∧
    refusedWorld.net = some (0, "Connection refused") ∧
    0 < (sessionOps refusedWorld.env 587 "a@b.com" "Disk full"
          "disk at 95%").length ∧
    ((run refusedWorld (some "a@b.com") (some "Disk full")
        (some "/tmp/b.txt")).exitCode = some 4 ∧
     (run refusedWorld (some "a@b.com") (some "Disk full")
        (some "/tmp/b.txt")).stderr =
       [StderrLine.smtpSendFailed "Connection refused"] ∧
     startsWithText
       (renderStderrLine (StderrLine.smtpSendFailed "Connection refused"))
       "SMTP send failed:" ∧
     (run refusedWorld (some "a@b.com") (some "Disk full")
        (some "/tmp/b.txt")).smtpTrace =
       (sessionOps refusedWorld.env 587 "a@b.com" "Disk full"
         "disk at 95%").take 1 ∧
     attemptsEachStepAtMostOnce
       (run refusedWorld (some "a@b.com") (some "Disk full")
          (some "/tmp/b.txt")).smtpTrace) :=
  ⟨by decide, rfl, rfl, by decide,
   C3_smtp_failure_exits_4 refusedWorld "a@b.com" "Disk full" "/tmp/b.txt"
     "disk at 95%" "Connection refused" 587 0 (by decide) rfl rfl (by decide)⟩

/-- C4 counterexample: with SMTP_FROM set (to the empty string), the
resolved smtp_from is the empty string, refuting "smtp_from is never the
empty string". -/
theorem C4_counterexample :
    emptyFromEnv "SMTP_FROM" = some "" ∧ smtpFrom emptyFromEnv = "" := by
  decide

/-- C4 (amended): the resolved smtp_from equals the SMTP_FROM variable
whenever it is set, even to the empty string; only when SMTP_FROM is unset
does it fall back to SMTP_USER and then to the fixed literal, and in that
case it is never empty. -/
theorem C4_amended_from_resolution (env : String → Option String) :
    (∀ v, env "SMTP_FROM" = some v → smtpFrom env = v) ∧
    (env "SMTP_FROM" = none →
      smtpFrom env =
        (if smtpUser env = "" then "monitor@example.com" else smtpUser env) ∧
      smtpFrom env ≠ "") := by
  constructor
  · intro v hv
    simp [smtpFrom, envGet, hv]
  · intro hnone
    refine ⟨by simp [smtpFrom, envGet, hnone], ?_⟩
    by_cases hu : smtpUser env = "" <;> simp [smtpFrom, envGet, hnone, hu]

/-- C4 witness: with every variable unset, the fall-back literal is used
and smtp_from is non-empty. -/
theorem C4_amended_witness :
    noVarEnv "SMTP_FROM" = none ∧
    (smtpFrom noVarEnv =
      (if smtpUser noVarEnv = "" then "monitor@example.com"
       else smtpUser noVarEnv) ∧
     smtpFrom noVarEnv ≠ "") :=
  ⟨rfl, (C4_amended_from_resolution noVarEnv).2 rfl⟩

/-- C9: SMTP_FROM set to the empty string makes the resolved smtp_from, and
hence the message From header, empty; the fallback chain to SMTP_USER and
the literal is applied only when SMTP_FROM is entirely unset. -/
theorem C9_empty_smtp_from_not_defaulted (env : String → Option String)
    (toA subject body : String) :
    (env "SMTP_FROM" = some "" →
      smtpFrom env = "" ∧ (builtMessage env toA subject body).fromAddr = "") ∧
    (env "SMTP_FROM" = none →
      smtpFrom env =
        (if smtpUser env = "" then "monitor@example.com"
         else smtpUser env)) := by
  constructor
  · intro hv
    have h : smtpFrom env = "" := by simp [smtpFrom, envGet, hv]
    exact ⟨h, by simp [builtMessage, h]⟩
  · intro hnone
    simp [smtpFrom, envGet, hnone]

/-- C9 witness at a concrete environment with SMTP_FROM set empty. -/
theorem C9_witness :
    emptyFromEnv "SMTP_FROM" = some "" ∧
    (smtpFrom emptyFromEnv = "" ∧
     (builtMessage emptyFromEnv "a@b.com" "Disk full"
        "disk at 95%").fromAddr = "") :=
  ⟨rfl,
   (C9_empty_smtp_from_not_defaulted emptyFromEnv "a@b.com" "Disk full"
      "disk at 95%").1 rfl⟩

/-- C5: the use_starttls flag is true exactly when the lowercased
SMTP_STARTTLS value (default "true") is one of "1", "true", "yes"; when
true the session opens a plain SMTP connection and upgrades via STARTTLS,
when false it opens a direct SMTP-over-TLS connection and never issues
STARTTLS. -/
theorem C5_starttls_flag_selects_branch (env : String → Option String)
    (port : Int) (toA subject body : String) :
    (smtpStarttls env = true ↔
      pyLower (envGet env "SMTP_STARTTLS" "true") ∈
        (["1", "true", "yes"] : List String)) ∧
    (smtpStarttls env = true →
      (sessionOps env port toA subject body).head? =
        some (SmtpOp.connectPlain (smtpHost env) port 30) ∧
      SmtpOp.startTLSUpgrade ∈ sessionOps env port toA subject body ∧
      ∀ h p t, SmtpOp.connectSSL h p t ∉ sessionOps env port toA subject body) ∧
    (smtpStarttls env = false →
      (sessionOps env port toA subject body).head? =
        some (SmtpOp.connectSSL (smtpHost env) port 30) ∧
      SmtpOp.startTLSUpgrade ∉ sessionOps env port toA subject body ∧
      ∀ h p t,
        SmtpOp.connectPlain h p t ∉ sessionOps env port toA subject body) := by
  refine ⟨by simp [smtpStarttls], ?_, ?_⟩
  · intro hs
    by_cases hu : smtpUser env = "" <;>
      simp [sessionOps, plannedOps, loginOps, hs, hu]
  · intro hs
    by_cases hu : smtpUser env = "" <;>
      simp [sessionOps, plannedOps, loginOps, hs, hu]

/-- C5 witness: the default environment selects the STARTTLS branch and an
environment with SMTP_STARTTLS=0 selects the direct-TLS branch. -/
theorem C5_witness :
    smtpStarttls noVarEnv = true ∧
    ((sessionOps noVarEnv 587 "a@b.com" "Disk full" "disk at 95%").head? =
       some (SmtpOp.connectPlain (smtpHost noVarEnv) 587 30) ∧
     SmtpOp.startTLSUpgrade ∈
       sessionOps noVarEnv 587 "a@b.com" "Disk full" "disk at 95%" ∧
     SmtpOp.connectSSL "smtp.gmail.com" 587 30 ∉
       sessionOps noVarEnv 587 "a@b.com" "Disk full" "disk at 95%") ∧
    smtpStarttls sslEnv = false ∧
    ((sessionOps sslEnv 465 "a@b.com" "Disk full" "disk at 95%").head? =
       some (SmtpOp.connectSSL (smtpHost sslEnv) 465 30) ∧
     SmtpOp.startTLSUpgrade ∉
       sessionOps sslEnv 465 "a@b.com" "Disk full" "disk at 95%" ∧
     SmtpOp.connectPlain "smtp.gmail.com" 465 30 ∉
       sessionOps sslEnv 465 "a@b.com" "Disk full" "disk at 95%") := by
  have h₁ := (C5_starttls_flag_selects_branch noVarEnv 587 "a@b.com"
    "Disk full" "disk at 95%").2.1 (by decide)
  have h₂ := (C5_starttls_flag_selects_branch sslEnv 465 "a@b.com"
    "Disk full" "disk at 95%").2.2 (by decide)
  exact ⟨by decide, ⟨h₁.1, h₁.2.1, h₁.2.2 "smtp.gmail.com" 587 30⟩,
    by decide, ⟨h₂.1, h₂.2.1, h₂.2.2 "smtp.gmail.com" 465 30⟩⟩

/-- C6: when SMTP_PORT is set to a string the int coercion rejects, the
error is uncaught by both guarded blocks: the process exits with none of
the codes 0, 3, 4, prints neither diagnostic prefix, builds no message and
attempts no SMTP operation. -/
theorem C6_nonnumeric_port_uncaught
    (w : World) (toA subject bodyFile s : String)
    (hset : w.env "SMTP_PORT" = some s)
    (hbad : pythonInt s = none) :
    (run w (some toA) (some subject) (some bodyFile)).exitCode = none ∧
    (run w (some toA) (some subject) (some bodyFile)).exitCode ≠ some 0 ∧
    (run w (some toA) (some subject) (some bodyFile)).exitCode ≠ some 3 ∧
    (run w (some toA) (some subject) (some bodyFile)).exitCode ≠ some 4 ∧
    ((run w (some toA) (some subject) (some bodyFile)).stderr.all
      fun l => !isDiagnostic l) = true ∧
    (run w (some toA) (some subject) (some bodyFile)).messageBuilt = none ∧
    (run w (some toA) (some subject) (some bodyFile)).smtpTrace = [] := by
  have hps : smtpPortStr w.env = s := by simp [smtpPortStr, envGet, hset]
  simp [run, hps, hbad, isDiagnostic]

/-- C6 witness at SMTP_PORT="abc". -/
theorem C6_witness :
    badPortWorld.env "SMTP_PORT" = some "abc" ∧
    pythonInt "abc" = none ∧
    ((run badPortWorld (some "a@b.com") (some "Disk full")
        (some "/tmp/b.txt")).exitCode = none ∧
     (run badPortWorld (some "a@b.com") (some "Disk full")
        (some "/tmp/b.txt")).exitCode ≠ some 0 ∧
     (run badPortWorld (some "a@b.com") (some "Disk full")
        (some "/tmp/b.txt")).exitCode ≠ some 3 ∧
     (run badPortWorld (some "a@b.com") (some "Disk full")
        (some "/tmp/b.txt")).exitCode ≠ some 4 ∧
     ((run badPortWorld (some "a@b.com") (some "Disk full")
        (some "/tmp/b.txt")).stderr.all fun l => !isDiagnostic l) = true ∧
     (run badPortWorld (some "a@b.com") (some "Disk full")
        (some "/tmp/b.txt")).messageBuilt = none ∧
     (run badPortWorld (some "a@b.com") (some "Disk full")
        (some "/tmp/b.txt")).smtpTrace = []) :=
  ⟨rfl, by decide,
   C6_nonnumeric_port_uncaught badPortWorld "a@b.com" "Disk full"
     "/tmp/b.txt" "abc" rfl (by decide)⟩

/-- No login operation occurs in a session planned for an empty user. -/
theorem login_not_mem_sessionOps {env : String → Option String}
    (huser : smtpUser env = "") (port : Int) (toA subject body u p : String) :
    SmtpOp.login u p ∉ sessionOps env port toA subject body := by
  by_cases hs : smtpStarttls env <;>
    simp [sessionOps, plannedOps, loginOps, hs, huser]

/-- C7: in both transport branches, the session contains a login exactly
when smtp_user is non-empty; the login carries (smtp_user, smtp_pass) and
is positioned before the message send. -/
theorem C7_login_iff_user_nonempty (env : String → Option String)
    (port : Int) (toA subject body : String) :
    (smtpUser env = "" →
      ∀ u p, SmtpOp.login u p ∉ sessionOps env port toA subject body) ∧
    (smtpUser env ≠ "" →
      ∃ i j : Nat, i < j ∧
        (sessionOps env port toA subject body)[i]? =
          some (SmtpOp.login (smtpUser env) (smtpPass env)) ∧
        (sessionOps env port toA subject body)[j]? =
          some (SmtpOp.sendMessage (builtMessage env toA subject body))) := by
  constructor
  · intro huser u p
    exact login_not_mem_sessionOps huser port toA subject body u p
  · intro huser
    by_cases hs : smtpStarttls env
    · refine ⟨4, 5, by norm_num, ?_, ?_⟩ <;>
        simp [sessionOps, plannedOps, loginOps, hs, huser]
    · refine ⟨1, 2, by norm_num, ?_, ?_⟩ <;>
        simp [sessionOps, plannedOps, loginOps, hs, huser]

/-- C7 witness: no login with the empty environment; with credentials set,
a login with them precedes the send. -/
theorem C7_witness :
    smtpUser noVarEnv = "" ∧
    SmtpOp.login "alice" "hunter2" ∉
      sessionOps noVarEnv 587 "a@b.com" "Disk full" "disk at 95%" ∧
    smtpUser credEnv ≠ "" ∧
    (∃ i j : Nat, i < j ∧
      (sessionOps credEnv 587 "a@b.com" "Disk full" "disk at 95%")[i]? =
        some (SmtpOp.login (smtpUser credEnv) (smtpPass credEnv)) ∧
      (sessionOps credEnv 587 "a@b.com" "Disk full" "disk at 95%")[j]? =
        some (SmtpOp.sendMessage
          (builtMessage credEnv "a@b.com" "Disk full" "disk at 95%"))) :=
  ⟨rfl,
   (C7_login_iff_user_nonempty noVarEnv 587 "a@b.com" "Disk full"
      "disk at 95%").1 rfl "alice" "hunter2",
   by decide,
   (C7_login_iff_user_nonempty credEnv 587 "a@b.com" "Disk full"
      "disk at 95%").2 (by decide)⟩

/-- C8: with any required flag missing, the process exits 2 with a usage
message, and the outcome is the same in every world: the environment, the
filesystem and the network are never consulted. -/
theorem C8_missing_flag_usage_exit_2
    (w w' : World) (a s b : Option String)
    (h : a = none ∨ s = none ∨ b = none) :
    run w a s b =
      { exitCode := some 2, stdout := [],
        stderr := [StderrLine.usage
          "usage error: the following arguments are required"],
        messageBuilt := none, smtpTrace := [] } ∧
    run w a s b = run w' a s b := by
  have key : ∀ w'' : World, run w'' a s b =
      { exitCode := some 2, stdout := [],
        stderr := [StderrLine.usage
          "usage error: the following arguments are required"],
        messageBuilt := none, smtpTrace := [] } := by
    intro w''
    rcases h with h | h | h
    · subst h; cases s <;> cases b <;> rfl
    · subst h; cases a <;> cases b <;> rfl
    · subst h; cases a <;> cases s <;> rfl
  exact ⟨key w, (key w).trans (key w').symm⟩

/-- C8 witness: omitting --to exits 2 identically in two different worlds. -/
theorem C8_witness :
    ((none : Option String) = none ∨
      (some "Disk full" : Option String) = none ∨
      (some "/tmp/b.txt" : Option String) = none) ∧
    (run okWorld none (some "Disk full") (some "/tmp/b.txt") =
      { exitCode := some 2, stdout := [],
        stderr := [StderrLine.usage
          "usage error: the following arguments are required"],
        messageBuilt := none, smtpTrace := [] } ∧
     run okWorld none (some "Disk full") (some "/tmp/b.txt") =
       run badFileWorld none (some "Disk full") (some "/tmp/b.txt")) :=
  ⟨Or.inl rfl,
   C8_missing_flag_usage_exit_2 okWorld badFileWorld none (some "Disk full")
     (some "/tmp/b.txt") (Or.inl rfl)⟩

/-- Helper for C10: with an empty user, no run ever attempts a login. -/
theorem run_no_login_of_user_empty (w : World) (a s b : Option String)
    (huser : smtpUser w.env = "") (u p : String) :
    SmtpOp.login u p ∉ (run w a s b).smtpTrace := by
  cases a with
  | none => cases s <;> cases b <;> simp [run]
  | some toA =>
    cases s with
    | none => cases b <;> simp [run]
    | some subject =>
      cases b with
      | none => simp [run]
      | some bodyFile =>
        simp only [run]
        cases hp : pythonInt (smtpPortStr w.env) with
        | none => simp
        | some port =>
          cases hb : w.readBody bodyFile with
          | error e => simp
          | ok body =>
            have hops := login_not_mem_sessionOps huser port toA subject
              body u p
            cases hn : w.net with
            | none => simpa [execSmtp] using hops
            | some pr =>
              obtain ⟨i, d⟩ := pr
              by_cases hi : i < (sessionOps w.env port toA subject body).length
              · simp only [execSmtp, hi, if_pos]
                intro hmem
                exact hops (List.take_subset _ _ hmem)
              · simpa [execSmtp, hi] using hops

/-- C10: two invocations identical except for SMTP_PASS behave identically
whenever the resolved smtp_user is empty; in particular neither attempts a
login. -/
theorem C10_pass_unobservable_when_user_empty
    (w₁ w₂ : World) (a s b : Option String)
    (henv : ∀ k, k ≠ "SMTP_PASS" → w₁.env k = w₂.env k)
    (hread : w₁.readBody = w₂.readBody)
    (hnet : w₁.net = w₂.net)
    (huser : smtpUser w₁.env = "") :
    run w₁ a s b = run w₂ a s b ∧
    (∀ u p, SmtpOp.login u p ∉ (run w₁ a s b).smtpTrace) := by
  have hUser : smtpUser w₁.env = smtpUser w₂.env := by
    simp [smtpUser, envGet, henv "SMTP_USER" (by decide)]
  have huser₂ : smtpUser w₂.env = "" := hUser ▸ huser
  have hHost : smtpHost w₁.env = smtpHost w₂.env := by
    simp [smtpHost, envGet, henv "SMTP_HOST" (by decide)]
  have hPortStr : smtpPortStr w₁.env = smtpPortStr w₂.env := by
    simp [smtpPortStr, envGet, henv "SMTP_PORT" (by decide)]
  have hFrom : smtpFrom w₁.env = smtpFrom w₂.env := by
    simp [smtpFrom, envGet, henv "SMTP_FROM" (by decide), hUser]
  have hTls : smtpStarttls w₁.env = smtpStarttls w₂.env := by
    simp [smtpStarttls, envGet, henv "SMTP_STARTTLS" (by decide)]
  have hSession : ∀ (port : Int) (toA subject body : String),
      sessionOps w₁.env port toA subject body =
        sessionOps w₂.env port toA subject body := by
    intro port toA subject body
    simp [sessionOps, plannedOps, loginOps, hTls, hHost, hFrom,
      builtMessage, huser, huser₂]
  have hMsg : ∀ toA subject body : String,
      builtMessage w₁.env toA subject body =
        builtMessage w₂.env toA subject body := by
    intro toA subject body
    simp [builtMessage, hFrom]
  refine ⟨?_, fun u p => run_no_login_of_user_empty w₁ a s b huser u p⟩
  cases a with
  | none => cases s <;> cases b <;> rfl
  | some toA =>
    cases s with
    | none => cases b <;> rfl
    | some subject =>
      cases b with
      | none => rfl
      | some bodyFile =>
        simp only [run, hPortStr, hread, hnet, hSession, hMsg]

/-- C10 witness: two concrete worlds differing only in SMTP_PASS produce
identical runs with no login. -/
theorem C10_witness :
    (∀ k, k ≠ "SMTP_PASS" → passWorldA.env k = passWorldB.env k) ∧
    passWorldA.readBody = passWorldB.readBody ∧
    passWorldA.net = passWorldB.net ∧
    smtpUser passWorldA.env = "" ∧
    (run passWorldA (some "a@b.com") (some "Disk full") (some "/tmp/b.txt") =
       run passWorldB (some "a@b.com") (some "Disk full")
         (some "/tmp/b.txt") ∧
     SmtpOp.login "alice" "hunter2" ∉
       (run passWorldA (some "a@b.com") (some "Disk full")
          (some "/tmp/b.txt")).smtpTrace) := by
  have henv : ∀ k, k ≠ "SMTP_PASS" → passWorldA.env k = passWorldB.env k := by
    intro k hk
    simp [passWorldA, passWorldB, hk]
  have h := C10_pass_unobservable_when_user_empty passWorldA passWorldB
    (some "a@b.com") (some "Disk full") (some "/tmp/b.txt") henv rfl rfl
    (by decide)
  exact ⟨henv, rfl, rfl, by decide, h.1, h.2 "alice" "hunter2"⟩

end Mailer
